import Mathlib

/-!
Verification of the AI-Studio-Augmented-Image front-end core.

The development shallowly embeds the two source files:
  * `src/types.ts` — the shared data model (`Segment`, `BoundingBox`,
    `StatItem`, `ActionItem`, `AnalysisResult`, `GeneratedImage`);
  * `src/unnamed/part_000` — the application state machine of `App`
    (`processSearch`, `handleReset`, the analysis-phrase list) and the
    widget rendering engine (`WidgetEngine`, `StatsWidget`,
    `DetailedWidget`).

The two external async services are modelled as `Except`-valued inputs:
a run of `processSearch` is determined by the outcome of the generation
call and, given the generated image, the outcome of the analysis call.
JavaScript errors are modelled by their optional `message` field
(`none` for an absent message; the code treats an empty message like an
absent one because of the `||` fallback).
-/

namespace Infographic

/-! ## Data model (src/types.ts) -/

/-- `StatItem` from types.ts: `{label, value, icon?}`. -/
structure StatItem where
  label : String
  value : String
  icon : Option String
deriving DecidableEq

/-- `ActionItem` from types.ts: `{label, url?}`. -/
structure ActionItem where
  label : String
  url : Option String
deriving DecidableEq

/-- `BoundingBox` from types.ts. The fields are JavaScript numbers
(percentages 0-100); no claim depends on fractional values, so they are
modelled as integers. -/
structure BoundingBox where
  x : Int
  y : Int
  width : Int
  height : Int
deriving DecidableEq

/-- `Segment` from types.ts. The TypeScript type of `format` is the union
`'compact' | 'stats' | 'detailed' | 'mini'`, but TypeScript types are erased
at runtime and segment records arrive from JSON produced by the analysis
service, so the runtime value may be any string; the rendering dispatch in
the source handles arbitrary strings through its `default` arm. `category`
is likewise a union of six string literals, modelled as a string. -/
structure Segment where
  label : String
  format : String
  description : String
  category : String
  icon : String
  stats : Option (List StatItem)
  sourceUrl : Option String
  sourceName : Option String
  actions : Option (List ActionItem)
  bounds : BoundingBox
deriving DecidableEq

/-- `AnalysisResult` from types.ts. -/
structure AnalysisResult where
  segments : List Segment
deriving DecidableEq

/-- One `{title, uri}` citation record of `GeneratedImage.groundingUrls`. -/
structure GroundingUrl where
  title : String
  uri : String
deriving DecidableEq

/-- `GeneratedImage` from types.ts. -/
structure GeneratedImage where
  base64 : String
  mimeType : String
  groundingUrls : List GroundingUrl
deriving DecidableEq

/-! ## Application state (App component, src/unnamed/part_000) -/

/-- `AppStatus` from the App component. -/
inductive AppStatus
  | idle
  | generating
  | analyzing
  | complete
deriving DecidableEq

/-- The value held by the `data` useState hook:
`{ image: GeneratedImage; analysis: AnalysisResult | null }`. -/
structure AppData where
  image : GeneratedImage
  analysis : Option AnalysisResult
deriving DecidableEq

/-- The App component's state record: the four useState hooks `query`,
`status`, `data`, `error`, plus the `analysisPhrase` hook. -/
structure AppState where
  query : String
  status : AppStatus
  data : Option AppData
  error : Option String
  analysisPhrase : String
deriving DecidableEq

/-- `ANALYSIS_PHRASES` from the App component. -/
def ANALYSIS_PHRASES : List String :=
  [ "Scanning visual topography...",
    "Identifying key data nodes...",
    "Synthesizing contextual widgets...",
    "Cross-referencing knowledge bases...",
    "Generating immersive annotations..." ]

/-- The fallback error string used in `processSearch`'s catch block. -/
def fallbackErrorMessage : String :=
  "Something went wrong. Please check your network and try again."

/-- A JavaScript error as seen by the catch block: its optional `message`. -/
abbrev JsErr := Option String

/-- `err.message || 'Something went wrong...'`: in JavaScript both an
absent message and an empty message are falsy and fall back. -/
def errMessage : JsErr → String
  | some m => if m = "" then fallbackErrorMessage else m
  | none => fallbackErrorMessage

/-- JavaScript `String.prototype.trim`: remove leading and trailing
whitespace, modelled on the string's character list. -/
def jsTrim (s : String) : String :=
  String.mk
    (((s.data.dropWhile Char.isWhitespace).reverse.dropWhile
        Char.isWhitespace).reverse)

/-- Initial hook values of the App component:
`query ''`, `status 'idle'`, `data null`, `error null`,
`analysisPhrase ANALYSIS_PHRASES[0]`. -/
def initialState : AppState :=
  { query := ""
    status := .idle
    data := none
    error := none
    analysisPhrase := ANALYSIS_PHRASES[0]! }

/-- The synchronous prefix of `processSearch` after the empty-query guard:
`setStatus('generating'); setError(null); setData(null)`. -/
def startSearch (s : AppState) : AppState :=
  { s with status := .generating, error := none, data := none }

/-- The continuation after `generateInfographic` succeeds:
`setData({ image, analysis: null }); setStatus('analyzing');
setAnalysisPhrase(ANALYSIS_PHRASES[0])`. -/
def onGenSuccess (s : AppState) (image : GeneratedImage) : AppState :=
  { s with data := some { image := image, analysis := none }
           status := .analyzing
           analysisPhrase := ANALYSIS_PHRASES[0]! }

/-- The catch block of `processSearch`, reached when either await throws:
`setError(err.message || fallback); setStatus('idle')`. Note that it does
not touch `data` or `query`. -/
def onFailure (s : AppState) (e : JsErr) : AppState :=
  { s with error := some (errMessage e), status := .idle }

/-- The continuation after `analyzeImageRegions` succeeds:
`setData({ image, analysis }); setStatus('complete')`. `image` comes from
the enclosing closure, not from the current state. -/
def onAnalysisSuccess (s : AppState) (image : GeneratedImage)
    (analysis : AnalysisResult) : AppState :=
  { s with data := some { image := image, analysis := some analysis }
           status := .complete }

/-- The part of a `processSearch` run from the analysis call's completion:
apply the success continuation or fall into the catch block. -/
def runAnalysisStage (s : AppState) (image : GeneratedImage)
    (r : Except JsErr AnalysisResult) : AppState :=
  match r with
  | .error e => onFailure s e
  | .ok analysis => onAnalysisSuccess s image analysis

/-- The try/catch body of `processSearch`: await generation, then on
success await analysis on the updated state. -/
def runPipeline (s : AppState) (gen : Except JsErr GeneratedImage)
    (an : GeneratedImage → Except JsErr AnalysisResult) : AppState :=
  match gen with
  | .error e => onFailure s e
  | .ok image => runAnalysisStage (onGenSuccess s image) image (an image)

/-- `processSearch(searchQuery)` as a whole-run state transformer, with the
outcomes of the two awaited service calls supplied as arguments:
`if (!searchQuery.trim()) return;` then the reset-and-start prefix, then
the try/catch pipeline. This models the run in which no other event
interleaves with the two awaits. -/
def processSearch (s : AppState) (searchQuery : String)
    (gen : Except JsErr GeneratedImage)
    (an : GeneratedImage → Except JsErr AnalysisResult) : AppState :=
  if jsTrim searchQuery = "" then s
  else runPipeline (startSearch s) gen an

/-- One invocation of an external service during a `processSearch` run. -/
inductive ServiceCall
  | generate (query : String)
  | analyze (query : String) (imageBase64 : String)
deriving DecidableEq

/-- The ordered list of service calls a `processSearch(searchQuery)` run
makes: none when the trimmed query is empty; `generateInfographic` alone
when generation fails; otherwise `generateInfographic` followed by
`analyzeImageRegions(searchQuery, image.base64)`. The analysis call is
issued regardless of its own outcome, so the list depends only on the
generation outcome. -/
def processSearchCalls (searchQuery : String)
    (gen : Except JsErr GeneratedImage) : List ServiceCall :=
  if jsTrim searchQuery = "" then []
  else
    match gen with
    | .error _ => [.generate searchQuery]
    | .ok image => [.generate searchQuery, .analyze searchQuery image.base64]

/-- `handleReset`: `setData(null); setStatus('idle'); setQuery('');
setError(null)`. -/
def handleReset (s : AppState) : AppState :=
  { s with data := none, status := .idle, query := "", error := none }

/-! ## Interleaved executions

`processSearch` is an async function: between its two awaits, other
handlers (a reset, another submission) may run. To reason about such
executions, the handlers' synchronous segments are modelled as events
applied to the state in the order they run on the single JS thread. The
continuations fire exactly as written in the source: without any guard on
the current status. -/

/-- A synchronous segment of execution of the App component's handlers. -/
inductive AppEvent
  /-- The synchronous prefix of `processSearch(q)` up to the first await. -/
  | submit (q : String)
  /-- The resumption of `processSearch(q)` when `generateInfographic`
  settles. -/
  | genCompleted (q : String) (r : Except JsErr GeneratedImage)
  /-- The resumption when `analyzeImageRegions` settles; `image` is the
  closure-captured generated image. -/
  | analysisCompleted (image : GeneratedImage)
      (r : Except JsErr AnalysisResult)
  /-- `handleReset`. -/
  | reset

/-- Apply one synchronous segment to the state, exactly as the source's
handlers do — in particular the completion handlers run unconditionally,
with no check that the machine is still in the state their call belongs
to. -/
def step (s : AppState) : AppEvent → AppState
  | .submit q => if jsTrim q = "" then s else startSearch s
  | .genCompleted _ r =>
      match r with
      | .ok image => onGenSuccess s image
      | .error e => onFailure s e
  | .analysisCompleted image r =>
      match r with
      | .ok analysis => onAnalysisSuccess s image analysis
      | .error e => onFailure s e
  | .reset => handleReset s

/-- Run a sequence of synchronous segments. -/
def runEvents (s : AppState) (es : List AppEvent) : AppState :=
  es.foldl step s

/-! ## Widget rendering engine (src/unnamed/part_000) -/

/-- Which sub-component the `WidgetEngine` factory dispatches to. -/
inductive WidgetVariant
  | mini
  | compact
  | stats
  | detailed
deriving DecidableEq

/-- The `switch (segment.format)` of `WidgetEngine`. The `case 'compact':`
label falls through to `default:`, so both produce the compact widget;
every string other than `'mini'`, `'stats'`, `'detailed'` reaches that
shared arm. -/
def WidgetEngine (segment : Segment) : WidgetVariant :=
  if segment.format = "mini" then .mini
  else if segment.format = "stats" then .stats
  else if segment.format = "detailed" then .detailed
  else .compact

/-- One item of the stats grid rendered by `StatsWidget`: either a stat
cell showing `stat.value` over `stat.label`, or the
"Detailed metrics unavailable." placeholder. -/
inductive StatsGridItem
  | cell (value : String) (label : String)
  | unavailablePlaceholder
deriving DecidableEq

/-- The condition `!segment.stats || segment.stats.length === 0` guarding
the placeholder in `StatsWidget` (an empty array is truthy in JavaScript,
so the disjunction reduces to: absent or empty). -/
def statsUnavailable : Option (List StatItem) → Bool
  | none => true
  | some l => l.isEmpty

/-- The children of `StatsWidget`'s grid `div`: the mapped stat cells
(`segment.stats?.map(...)`, nothing when `stats` is absent) followed by
the conditional placeholder. -/
def statsWidgetGrid (segment : Segment) : List StatsGridItem :=
  ((segment.stats.getD []).map fun st => StatsGridItem.cell st.value st.label)
    ++ (if statsUnavailable segment.stats then
          [StatsGridItem.unavailablePlaceholder]
        else [])

/-- One entry of `DetailedWidget`'s stat strip, showing `stat.label` over
`stat.value`. -/
structure StripEntry where
  label : String
  value : String
deriving DecidableEq

/-- The conditionally rendered stat strip of `DetailedWidget`:
`segment.stats && segment.stats.length > 0 && (<strip of stats.map(...)>)`.
`none` means nothing is rendered in its place. -/
def detailedWidgetStrip (segment : Segment) : Option (List StripEntry) :=
  match segment.stats with
  | none => none
  | some l =>
      if l.length > 0 then
        some (l.map fun st => { label := st.label, value := st.value })
      else none

/-! ## Sample values used by counterexamples and witnesses -/

/-- A concrete generated image. -/
def imgA : GeneratedImage :=
  { base64 := "AAA", mimeType := "image/png", groundingUrls := [] }

/-- A concrete stat entry. -/
def sampleStat : StatItem :=
  { label := "Wingspan", value := "40 m", icon := none }

/-- A concrete bounding box. -/
def sampleBounds : BoundingBox :=
  { x := 10, y := 20, width := 30, height := 15 }

/-- A concrete segment. -/
def sampleSegment : Segment :=
  { label := "Wings"
    format := "compact"
    description := "Membranous lift surfaces."
    category := "concept"
    icon := "W"
    stats := none
    sourceUrl := none
    sourceName := none
    actions := none
    bounds := sampleBounds }

/-- `sampleSegment` with a format string outside the four known values. -/
def hologramSegment : Segment :=
  { sampleSegment with format := "hologram" }

/-- The idle state with a query typed into the input. -/
def typedState : AppState :=
  { initialState with query := "Anatomy of a Dragon" }

/-- A state in which a previous pipeline has finished. -/
def completeState : AppState :=
  { initialState with status := .complete }

/-! ## Helper lemmas -/

/-- For a non-empty trimmed query, `processSearch` runs the pipeline on the
reset-and-started state. -/
theorem processSearch_eq_runPipeline (s : AppState) (q : String)
    (gen : Except JsErr GeneratedImage)
    (an : GeneratedImage → Except JsErr AnalysisResult)
    (h : jsTrim q ≠ "") :
    processSearch s q gen an = runPipeline (startSearch s) gen an := by
  unfold processSearch
  rw [if_neg h]

/-- For a non-empty trimmed query, the call list follows the generation
outcome. -/
theorem processSearchCalls_nonempty (q : String)
    (gen : Except JsErr GeneratedImage) (h : jsTrim q ≠ "") :
    processSearchCalls q gen =
      match gen with
      | .error _ => [.generate q]
      | .ok image => [.generate q, .analyze q image.base64] := by
  unfold processSearchCalls
  rw [if_neg h]

/-! ## Claim theorems -/

/-- C1 counterexample: submitting `"Y"` with generation succeeding and
analysis failing with no message ends with `status = idle` and the
fallback error, but the `data` field is NOT cleared to `null` — the catch
block of `processSearch` never calls `setData(null)`, so the generated
image is retained in state. -/
theorem C1_counterexample :
    (processSearch initialState "Y" (.ok imgA) (fun _ => .error none)).status
      = .idle ∧
    (processSearch initialState "Y" (.ok imgA) (fun _ => .error none)).error
      = some fallbackErrorMessage ∧
    (processSearch initialState "Y" (.ok imgA) (fun _ => .error none)).data
      ≠ none := by
  decide

/-- C1 (amended): for every run in which generation succeeds and analysis
then fails, the resulting state has `status = idle` and
`error = message-or-fallback` as claimed, but `data` retains
`{image, analysis: null}` — the successfully generated image stays in
state (the idle view simply does not render it). -/
theorem C1_analysis_failure_retains_data (s : AppState) (q : String)
    (image : GeneratedImage) (e : JsErr) (h : jsTrim q ≠ "") :
    processSearch s q (.ok image) (fun _ => .error e) =
      { s with status := .idle
               data := some { image := image, analysis := none }
               error := some (errMessage e)
               analysisPhrase := ANALYSIS_PHRASES[0]! } := by
  rw [processSearch_eq_runPipeline s q _ _ h]
  rfl

/-- C1 witness: the amended statement at the spec's own scenario (query
`"Y"`, analysis failure with no message). -/
theorem C1_analysis_failure_retains_data_witness :
    processSearch initialState "Y" (.ok imgA) (fun _ => .error none) =
      { initialState with
          status := .idle
          data := some { image := imgA, analysis := none }
          error := some (errMessage none)
          analysisPhrase := ANALYSIS_PHRASES[0]! } :=
  C1_analysis_failure_retains_data initialState "Y" imgA none (by decide)

/-- C2: the code violates the stale-completion requirement. In the
execution submit `"X"` → reset → late completion of the superseded
generation call, the reset has returned the machine to
`{status: idle, data: null}`, yet the late result is applied: the
continuation unconditionally overwrites the state to
`{status: analyzing, data: {image, analysis: null}}` instead of ignoring
it. -/
theorem C2_stale_generation_overwrites :
    (runEvents initialState [.submit "X", .reset]).status = .idle ∧
    (runEvents initialState [.submit "X", .reset]).data = none ∧
    runEvents initialState [.submit "X", .reset, .genCompleted "X" (.ok imgA)]
      = { query := ""
          status := .analyzing
          data := some { image := imgA, analysis := none }
          error := none
          analysisPhrase := ANALYSIS_PHRASES[0]! } := by
  decide

/-- C3 counterexample: generation fails with message `"quota exceeded"`;
the machine returns to idle with the error displayed, yet the previously
typed query `"Anatomy of a Dragon"` is still held in state —
`processSearch` never calls `setQuery`, so the query IS preserved,
contrary to the claim. -/
theorem C3_counterexample :
    (processSearch typedState "Anatomy of a Dragon"
        (.error (some "quota exceeded")) (fun _ => .error none)).status
      = .idle ∧
    (processSearch typedState "Anatomy of a Dragon"
        (.error (some "quota exceeded")) (fun _ => .error none)).error
      = some "quota exceeded" ∧
    (processSearch typedState "Anatomy of a Dragon"
        (.error (some "quota exceeded")) (fun _ => .error none)).query
      = "Anatomy of a Dragon" := by
  decide

/-- C3 (amended): the query field is preserved through every
`processSearch` run — on generation failure, analysis failure and both
success paths alike, `processSearch` leaves `query` untouched, so after an
error the typed query remains in state (and repopulates the idle view's
input). -/
theorem C3_query_preserved (s : AppState) (q : String)
    (gen : Except JsErr GeneratedImage)
    (an : GeneratedImage → Except JsErr AnalysisResult) :
    (processSearch s q gen an).query = s.query := by
  unfold processSearch
  split
  · rfl
  · rcases gen with e | image
    · rfl
    · unfold runPipeline
      rcases h : an image with e2 | analysis <;>
        simp [runAnalysisStage, h, onFailure, onGenSuccess,
          onAnalysisSuccess, startSearch]

/-- C4: for every successful image-generation result (non-empty trimmed
query), the machine moves from `generating` (the state in which the call
was made) to `analyzing` with the returned image stored, the analysis
field `null`, and the rotating status phrase reset to the first phrase of
`ANALYSIS_PHRASES`; only then does the run continue with the region
analysis call, which `processSearchCalls` records after the generation
call, invoked with the query and the image's base64 data. -/
theorem C4_generation_success (s : AppState) (q : String)
    (image : GeneratedImage)
    (an : GeneratedImage → Except JsErr AnalysisResult)
    (h : jsTrim q ≠ "") :
    (startSearch s).status = .generating ∧
    (onGenSuccess (startSearch s) image).status = .analyzing ∧
    (onGenSuccess (startSearch s) image).data
      = some { image := image, analysis := none } ∧
    (onGenSuccess (startSearch s) image).analysisPhrase
      = ANALYSIS_PHRASES[0]! ∧
    processSearch s q (.ok image) an
      = runAnalysisStage (onGenSuccess (startSearch s) image) image
          (an image) ∧
    processSearchCalls q (.ok image)
      = [.generate q, .analyze q image.base64] := by
  refine ⟨rfl, rfl, rfl, rfl, ?_, ?_⟩
  · rw [processSearch_eq_runPipeline s q _ _ h]
    rfl
  · rw [processSearchCalls_nonempty q _ h]

/-- C4 witness: the generation-success transition at the concrete query
`"Dragon"` and image `imgA`. -/
theorem C4_generation_success_witness :
    (startSearch initialState).status = .generating ∧
    (onGenSuccess (startSearch initialState) imgA).status = .analyzing ∧
    (onGenSuccess (startSearch initialState) imgA).data
      = some { image := imgA, analysis := none } ∧
    (onGenSuccess (startSearch initialState) imgA).analysisPhrase
      = ANALYSIS_PHRASES[0]! ∧
    processSearch initialState "Dragon" (.ok imgA)
        (fun _ => .ok { segments := [] })
      = runAnalysisStage (onGenSuccess (startSearch initialState) imgA) imgA
          (Except.ok { segments := [] }) ∧
    processSearchCalls "Dragon" (.ok imgA)
      = [.generate "Dragon", .analyze "Dragon" imgA.base64] :=
  C4_generation_success initialState "Dragon" imgA
    (fun _ => .ok { segments := [] }) (by decide)

/-- C5: for every failure of either async call (non-empty trimmed query),
the machine returns to `idle` and the displayed error is
`errMessage` of the thrown error; `errMessage` yields the error's message
when it carries a non-empty one and the single fixed fallback string when
it carries none. -/
theorem C5_failure_display (s : AppState) (q : String)
    (image : GeneratedImage) (e eAn : JsErr) (m : String)
    (an : GeneratedImage → Except JsErr AnalysisResult)
    (h : jsTrim q ≠ "") (hm : m ≠ "") :
    (processSearch s q (.error e) an).status = .idle ∧
    (processSearch s q (.error e) an).error = some (errMessage e) ∧
    (processSearch s q (.ok image) (fun _ => .error eAn)).status = .idle ∧
    (processSearch s q (.ok image) (fun _ => .error eAn)).error
      = some (errMessage eAn) ∧
    errMessage (some m) = m ∧
    errMessage none = fallbackErrorMessage := by
  rw [processSearch_eq_runPipeline s q (.error e) an h,
    processSearch_eq_runPipeline s q (.ok image) (fun _ => .error eAn) h]
  refine ⟨rfl, rfl, rfl, rfl, ?_, rfl⟩
  simp [errMessage, hm]

/-- C5 witness: the spec's scenario — query `"X"`, generation failing with
message `"quota exceeded"` — together with the analysis-failure branch
with no message. -/
theorem C5_failure_display_witness :
    (processSearch initialState "X" (.error (some "quota exceeded"))
        (fun _ => .error none)).status = .idle ∧
    (processSearch initialState "X" (.error (some "quota exceeded"))
        (fun _ => .error none)).error
      = some (errMessage (some "quota exceeded")) ∧
    (processSearch initialState "X" (.ok imgA)
        (fun _ => .error none)).status = .idle ∧
    (processSearch initialState "X" (.ok imgA)
        (fun _ => .error none)).error = some (errMessage none) ∧
    errMessage (some "quota exceeded") = "quota exceeded" ∧
    errMessage none = fallbackErrorMessage :=
  C5_failure_display initialState "X" imgA (some "quota exceeded") none
    "quota exceeded" (fun _ => .error none) (by decide) (by decide)

/-- C6: the widget-rendering dispatch is total over format strings — any
format outside `{mini, compact, stats, detailed}` renders the compact
variant, and each of the four known values renders its corresponding
variant. -/
theorem C6_dispatch_total (seg : Segment)
    (h1 : seg.format ≠ "mini") (_h2 : seg.format ≠ "compact")
    (h3 : seg.format ≠ "stats") (h4 : seg.format ≠ "detailed") :
    WidgetEngine seg = .compact ∧
    WidgetEngine { seg with format := "mini" } = .mini ∧
    WidgetEngine { seg with format := "compact" } = .compact ∧
    WidgetEngine { seg with format := "stats" } = .stats ∧
    WidgetEngine { seg with format := "detailed" } = .detailed := by
  refine ⟨?_, rfl, rfl, rfl, rfl⟩
  unfold WidgetEngine
  rw [if_neg h1, if_neg h3, if_neg h4]

/-- C6 witness: the dispatch at the unknown format `"hologram"` and at the
four known formats. -/
theorem C6_dispatch_total_witness :
    WidgetEngine hologramSegment = .compact ∧
    WidgetEngine { hologramSegment with format := "mini" } = .mini ∧
    WidgetEngine { hologramSegment with format := "compact" } = .compact ∧
    WidgetEngine { hologramSegment with format := "stats" } = .stats ∧
    WidgetEngine { hologramSegment with format := "detailed" }
      = .detailed :=
  C6_dispatch_total hologramSegment (by decide) (by decide) (by decide)
    (by decide)

/-- C7: in the stats widget's grid, an absent or empty `stats` array
yields exactly the "unavailable" placeholder; a non-empty one yields
exactly its entries as cells, in order; and the grid is never empty. -/
theorem C7_stats_grid (seg : Segment) (l : List StatItem) (hl : l ≠ []) :
    statsWidgetGrid { seg with stats := none }
      = [StatsGridItem.unavailablePlaceholder] ∧
    statsWidgetGrid { seg with stats := some [] }
      = [StatsGridItem.unavailablePlaceholder] ∧
    statsWidgetGrid { seg with stats := some l }
      = l.map (fun st => StatsGridItem.cell st.value st.label) ∧
    statsWidgetGrid seg ≠ [] := by
  refine ⟨rfl, rfl, ?_, ?_⟩
  · cases l with
    | nil => exact absurd rfl hl
    | cons a t => simp [statsWidgetGrid, statsUnavailable]
  · rcases hs : seg.stats with _ | l2
    · simp [statsWidgetGrid, statsUnavailable, hs]
    · rcases l2 with _ | ⟨a, t⟩ <;>
        simp [statsWidgetGrid, statsUnavailable, hs]

/-- C7 witness: the stats grid of `sampleSegment` with stats absent,
empty, and equal to `[sampleStat]`. -/
theorem C7_stats_grid_witness :
    statsWidgetGrid { sampleSegment with stats := none }
      = [StatsGridItem.unavailablePlaceholder] ∧
    statsWidgetGrid { sampleSegment with stats := some [] }
      = [StatsGridItem.unavailablePlaceholder] ∧
    statsWidgetGrid { sampleSegment with stats := some [sampleStat] }
      = [sampleStat].map (fun st => StatsGridItem.cell st.value st.label) ∧
    statsWidgetGrid sampleSegment ≠ [] :=
  C7_stats_grid sampleSegment [sampleStat] (List.cons_ne_nil _ _)

/-- C8: the detailed widget's stat strip is rendered (is `some`) if and
only if the `stats` array is present and non-empty, in which case it
contains the entries in order; when absent or empty, nothing is rendered
in its place (`none`, no placeholder). -/
theorem C8_detailed_strip (seg : Segment) (l : List StatItem)
    (hl : l ≠ []) :
    detailedWidgetStrip { seg with stats := none } = none ∧
    detailedWidgetStrip { seg with stats := some [] } = none ∧
    detailedWidgetStrip { seg with stats := some l }
      = some (l.map fun st => StripEntry.mk st.label st.value) ∧
    ((detailedWidgetStrip seg).isSome = true ↔
      ∃ l2, seg.stats = some l2 ∧ l2 ≠ []) := by
  refine ⟨rfl, rfl, ?_, ?_⟩
  · cases l with
    | nil => exact absurd rfl hl
    | cons a t => simp [detailedWidgetStrip]
  · rcases hs : seg.stats with _ | l2
    · simp [detailedWidgetStrip, hs]
    · rcases l2 with _ | ⟨a, t⟩ <;> simp [detailedWidgetStrip, hs]

/-- C8 witness: the detailed widget's strip for `sampleSegment` with stats
absent, empty, and equal to `[sampleStat]`. -/
theorem C8_detailed_strip_witness :
    detailedWidgetStrip { sampleSegment with stats := none } = none ∧
    detailedWidgetStrip { sampleSegment with stats := some [] } = none ∧
    detailedWidgetStrip { sampleSegment with stats := some [sampleStat] }
      = some ([sampleStat].map fun st => StripEntry.mk st.label st.value) ∧
    ((detailedWidgetStrip sampleSegment).isSome = true ↔
      ∃ l2, sampleSegment.stats = some l2 ∧ l2 ≠ []) :=
  C8_detailed_strip sampleSegment [sampleStat] (List.cons_ne_nil _ _)

/-- C9: submitting an empty or whitespace-only query from the idle state
is a no-op — the state (status, data, error, query) is returned unchanged
and no service call is made. -/
theorem C9_empty_query_noop (s : AppState) (q : String)
    (gen : Except JsErr GeneratedImage)
    (an : GeneratedImage → Except JsErr AnalysisResult)
    (_hs : s.status = .idle) (h : jsTrim q = "") :
    processSearch s q gen an = s ∧ processSearchCalls q gen = [] := by
  constructor
  · unfold processSearch
    rw [if_pos h]
  · unfold processSearchCalls
    rw [if_pos h]

/-- C9 witness: the whitespace query `"   "` submitted in the initial
(idle) state. -/
theorem C9_empty_query_noop_witness :
    processSearch initialState "   " (.ok imgA) (fun _ => .error none)
      = initialState ∧
    processSearchCalls "   " (.ok imgA) = [] :=
  C9_empty_query_noop initialState "   " (.ok imgA) (fun _ => .error none)
    rfl (by decide)

/-- C10: `processSearch` carries no precondition on the current status —
for every state (any status) and every query with non-empty trim, the run
first replaces the state by `startSearch s` (status `generating`, error
and data cleared) and its first service call is the generation call. -/
theorem C10_no_status_precondition (s : AppState) (q : String)
    (gen : Except JsErr GeneratedImage)
    (an : GeneratedImage → Except JsErr AnalysisResult)
    (h : jsTrim q ≠ "") :
    processSearch s q gen an = runPipeline (startSearch s) gen an ∧
    (startSearch s).status = .generating ∧
    (startSearch s).error = none ∧
    (startSearch s).data = none ∧
    (processSearchCalls q gen).head? = some (.generate q) := by
  refine ⟨processSearch_eq_runPipeline s q gen an h, rfl, rfl, rfl, ?_⟩
  rw [processSearchCalls_nonempty q gen h]
  cases gen <;> rfl

/-- C10 witness: a submission issued while the machine is in the
`complete` state. -/
theorem C10_no_status_precondition_witness :
    processSearch completeState "Dragon" (.ok imgA) (fun _ => .error none)
      = runPipeline (startSearch completeState) (.ok imgA)
          (fun _ => .error none) ∧
    (startSearch completeState).status = .generating ∧
    (startSearch completeState).error = none ∧
    (startSearch completeState).data = none ∧
    (processSearchCalls "Dragon" (.ok imgA)).head?
      = some (.generate "Dragon") :=
  C10_no_status_precondition completeState "Dragon" (.ok imgA)
    (fun _ => .error none) (by decide)

end Infographic
